import Mathlib

/-!
Verification of the document ingestion and hybrid retrieval engine of the
office-bot backend (src/backend/api/main.py), as a shallow embedding.

The embedding mirrors the source:
- `Chunk` models a langchain Document: `page_content` plus the metadata keys
  `source`, `page` and `section` (here `sect`, since `section` is a keyword);
  a missing key is `none`.
- `PageDoc` models one page produced by `PyMuPDFLoader.load()`: per-page text,
  0-indexed `page` metadata and the loader `source` path.
- `SourceFile` models one file of the corpus directory; `parseResult = none`
  models the per-file exception path (unreadable document).
- The `RecursiveCharacterTextSplitter`, the Chroma similarity search, the BM25
  scoring and the LLM query refiner are external library collaborators; they
  enter as function parameters (`split`, `vsearch`, `lsearch`, `refine`).
  `split_documents` mirrors langchain: every piece of a page inherits that
  page's metadata.
- `ingest_documents` mirrors the orchestrator: early return on an empty file
  list, build-once guard on `count() == 0`, per-file skip of unreadable files,
  lexical index rebuilt from `vectorstore.get()['documents']` (texts only),
  ensemble retriever constructed when that list is non-empty.
- `UniversalRetriever.invoke` is `chroma.invoke(q) + bm25.invoke(q)` with k = 5
  on both sides; BM25 results are Documents built from bare texts, so their
  metadata is empty.
- `handle_small_talk` and the `/chat` handler control flow (small talk, the
  not-ready guard, retrieval, context formatting with its metadata defaults)
  are embedded in `handle_small_talk`, `formatItem` and `chat`.
-/

namespace OfficeBot

/-- A langchain Document as the program uses it: free text plus the three
metadata keys the code reads and writes; `none` models a missing key. -/
structure Chunk where
  page_content : String
  source : Option String
  page : Option Nat
  sect : Option String
deriving Repr, DecidableEq

/-- One page as produced by the PDF loader: page text, 0-indexed page number
and the loader-supplied source path. -/
structure PageDoc where
  page_content : String
  page : Nat
  src : String
deriving Repr, DecidableEq

/-- One file of the corpus directory; `parseResult = none` models a file whose
loading raises (unreadable document), caught by the per-file `except`. -/
structure SourceFile where
  filename : String
  parseResult : Option (List PageDoc)
deriving Repr, DecidableEq

/-- langchain `split_documents`: split each page's text with the character
splitter; every produced piece inherits the page's metadata. -/
def split_documents (split : String → List String) (docs : List PageDoc) : List Chunk :=
  docs.flatMap fun d =>
    (split d.page_content).map fun t =>
      { page_content := t, source := some d.src, page := some d.page, sect := none }

/-- Characters of the first line: everything before the first newline. -/
def lineChars : List Char → List Char
  | [] => []
  | c :: rest => if c = '\n' then [] else c :: lineChars rest

/-- Python `text.split(chr 10)[0]`: the segment before the first newline. -/
def firstLine (s : String) : String := String.mk (lineChars s.toList)

/-- Python slicing `s[:n]`. -/
def pyTake (n : Nat) (s : String) : String := String.mk (s.toList.take n)

/-- The section heuristic of the tagging loop:
`first_line[:50] if len(first_line) > 3 else "General Section"`. -/
def sectionName (content : String) : String :=
  if (firstLine content).length > 3 then pyTake 50 (firstLine content) else "General Section"

/-- The body of the tagging loop: overwrite `source` with the filename and set
the section label; the page metadata is left as the loader produced it. -/
def tagChunk (filename : String) (c : Chunk) : Chunk :=
  { c with source := some filename, sect := some (sectionName c.page_content) }

/-- One iteration of the ingestion `for` loop: an unreadable file contributes
nothing (exception caught, logged, skipped); a readable one is loaded, split
and tagged. -/
def processFile (split : String → List String) (f : SourceFile) : List Chunk :=
  match f.parseResult with
  | none => []
  | some pages => (split_documents split pages).map (tagChunk f.filename)

/-- The in-memory BM25 index: `BM25Retriever.from_texts(all_docs)` receives the
bare texts only, so this is all the state it holds. -/
structure BM25Index where
  texts : List String
deriving Repr, DecidableEq

/-- The `UniversalRetriever` closure state: the vector store it searches and
the BM25 index built from the persisted texts. -/
structure Retriever where
  chromaStore : List Chunk
  bm25 : BM25Index
deriving Repr, DecidableEq

/-- Program state the orchestrator touches: the persisted Chroma collection
(a list of stored documents) and the global `ensemble_retriever`. -/
structure IngestState where
  store : List Chunk
  retriever : Option Retriever
deriving Repr, DecidableEq

/-- The store after the build-once-guarded indexing branch: if
`count() == 0` every file is processed and the chunks added, else the
persisted store is untouched. -/
def indexedStore (split : String → List String) (files : List SourceFile)
    (s : IngestState) : List Chunk :=
  if s.store.length = 0 then s.store ++ files.flatMap (processFile split) else s.store

/-- `ingest_documents`: early return when no `.pdf` files are listed; otherwise
run the guarded indexing branch, read back `get()['documents']`, and when that
list is non-empty build BM25 from it and install the ensemble retriever. -/
def ingest_documents (split : String → List String) (files : List SourceFile)
    (s : IngestState) : IngestState :=
  if files.isEmpty then s
  else if ((indexedStore split files s).map fun c => c.page_content).isEmpty then
    { store := indexedStore split files s, retriever := s.retriever }
  else
    { store := indexedStore split files s,
      retriever := some
        { chromaStore := indexedStore split files s,
          bm25 := { texts := (indexedStore split files s).map fun c => c.page_content } } }

/-- `is_ready` of the spec: the request layer checks `if not ensemble_retriever`. -/
def is_ready (s : IngestState) : Bool := s.retriever.isSome

/-- `chroma.invoke(query)` with the configured `search_kwargs={"k": 5}`;
the similarity search itself is the external collaborator `vsearch`. -/
def chromaInvoke (vsearch : List Chunk → String → Nat → List Chunk)
    (r : Retriever) (q : String) : List Chunk :=
  vsearch r.chromaStore q 5

/-- A Document as `BM25Retriever.from_texts` materialises it: the text with
empty metadata. -/
def bm25ResultDoc (t : String) : Chunk :=
  { page_content := t, source := none, page := none, sect := none }

/-- `bm25.invoke(query)` with `bm25.k = 5`; the scoring is the external
collaborator `lsearch`, which returns texts of the indexed corpus. -/
def bm25Invoke (lsearch : List String → String → Nat → List String)
    (r : Retriever) (q : String) : List Chunk :=
  (lsearch r.bm25.texts q 5).map bm25ResultDoc

/-- `UniversalRetriever.invoke`: `chroma.invoke(query) + bm25.invoke(query)`. -/
def UniversalRetriever.invoke (vsearch : List Chunk → String → Nat → List Chunk)
    (lsearch : List String → String → Nat → List String)
    (r : Retriever) (q : String) : List Chunk :=
  chromaInvoke vsearch r q ++ bm25Invoke lsearch r q

/-! ## Small talk (`handle_small_talk`) -/

/-- The greeting alternatives of `re.fullmatch(r'(hi|hello|hey|yo|good morning|good afternoon)', q)`:
a full match of a literal alternation is exact equality with one of them. -/
def smallTalkGreetings : List String :=
  ["hi", "hello", "hey", "yo", "good morning", "good afternoon"]

/-- The canned greeting answer. -/
def greetingReply : String :=
  "Hello. I am your Corporate Knowledge Assistant. Please state your inquiry regarding company policy or documentation."

/-- The canned operational-status answer. -/
def operationalReply : String :=
  "Systems are fully operational. I am ready to process your query."

/-- The alternation of `re.search(r'how.*(are you|about you|doing|is it going)', q)`. -/
def altPatterns : List (List Char) :=
  [("are you").toList, ("about you").toList, ("doing").toList, ("is it going").toList]

/-- Does one of the alternatives start here. -/
def startsWithAlt (cs : List Char) : Bool :=
  altPatterns.any fun a => List.isPrefixOf a cs

/-- The `.*(alt)` part anchored at the head: skip non-newline characters
(Python `.` does not match a newline) until an alternative starts. -/
def dotStarAlt : List Char → Bool
  | [] => false
  | c :: rest => startsWithAlt (c :: rest) || (c != '\n' && dotStarAlt rest)

/-- `re.search(r'how.*(...)', q)`: at some position, the literal `how`
followed by `.*(alt)`. -/
def howSearch : List Char → Bool
  | [] => false
  | c :: rest =>
      (List.isPrefixOf ("how").toList (c :: rest) && dotStarAlt ((c :: rest).drop 3))
        || howSearch rest

/-- Python substring membership `pat in s` on character lists. -/
def listContainsSub (pat : List Char) : List Char → Bool
  | [] => pat.isEmpty
  | c :: rest => List.isPrefixOf pat (c :: rest) || listContainsSub pat rest

/-- Python `pat in s` on strings. -/
def strContains (s pat : String) : Bool := listContainsSub pat.toList s.toList

/-- Python `q.lower()`, characterwise. -/
def pyToLower (s : String) : String := String.mk (s.toList.map Char.toLower)

/-- Python `q.strip()`: drop whitespace from both ends. -/
def pyStrip (s : String) : String :=
  String.mk (((s.toList.dropWhile Char.isWhitespace).reverse.dropWhile Char.isWhitespace).reverse)

/-- `handle_small_talk`: lower-case and strip the query; a full greeting match
returns the greeting reply; a `how ...` match that mentions neither `process`
nor `onbord` returns the operational reply; otherwise `None`. -/
def handle_small_talk (query : String) : Option String :=
  if smallTalkGreetings.contains (pyStrip (pyToLower query)) then some greetingReply
  else if howSearch (pyStrip (pyToLower query)).toList
      && !(strContains (pyStrip (pyToLower query)) "process")
      && !(strContains (pyStrip (pyToLower query)) "onbord") then some operationalReply
  else none

/-! ## The `/chat` handler -/

/-- One item of the retrieval fan-in as the formatting loop sees it: either a
Document (it has a `metadata` attribute) or a plain value without one. -/
inductive RItem where
  | doc (c : Chunk)
  | plain (s : String)
deriving Repr, DecidableEq

/-- A single-quote character, as it appears in the XML-ish context template. -/
def sq : String := String.singleton (Char.ofNat 39)

/-- The page value the formatting loop exposes:
`d.metadata.get('page', 0) + 1`. -/
def renderedPage (c : Chunk) : Nat := c.page.getD 0 + 1

/-- Python `content.replace(chr 10, chr 32)`: the pattern is a single
character, so the replacement is characterwise. -/
def replaceNewlines (s : String) : String :=
  String.mk (s.toList.map fun c => if c = '\n' then ' ' else c)

/-- The body of the context-building loop: a Document is wrapped with its
metadata (defaults `Unknown Document`, page `0 + 1`, `General`) and its text
with newlines replaced by spaces; anything without metadata becomes a bare
content block. -/
def formatItem : RItem → String
  | .doc c =>
      "<doc><meta source=" ++ sq ++ c.source.getD "Unknown Document" ++ sq
        ++ " page=" ++ sq ++ toString (renderedPage c) ++ sq
        ++ " section=" ++ sq ++ c.sect.getD "General" ++ sq ++ "/>"
        ++ "<content>" ++ replaceNewlines c.page_content ++ "</content></doc>"
  | .plain s => "<doc><content>" ++ s ++ "</content></doc>"

/-- The not-ready answer of the `/chat` handler. -/
def notReadyReply : String :=
  "System initialization incomplete. Please upload source documentation."

/-- The observable outcome of one `/chat` call, up to the external LLM: the
small-talk short circuit, the not-ready guard, or retrieval with the formatted
context handed to the prompt. -/
inductive ChatOutcome where
  | smallTalk (answer : String)
  | notReady (answer : String)
  | answered (docs : List Chunk) (context_text : String)
deriving Repr, DecidableEq

/-- The retrieval fan-in: both sub-retrievers return Document objects, so every
item of `ensemble_retriever.invoke(...)` has a `metadata` attribute. -/
def retrievedItems (vsearch : List Chunk → String → Nat → List Chunk)
    (lsearch : List String → String → Nat → List String)
    (r : Retriever) (q : String) : List RItem :=
  (UniversalRetriever.invoke vsearch lsearch r q).map RItem.doc

/-- The `/chat` handler control flow: small talk first, then the
`if not ensemble_retriever` guard, then refine, retrieve and format. -/
def chat (vsearch : List Chunk → String → Nat → List Chunk)
    (lsearch : List String → String → Nat → List String)
    (refine : String → String) (s : IngestState) (question : String) : ChatOutcome :=
  match handle_small_talk question with
  | some a => .smallTalk a
  | none =>
    match s.retriever with
    | none => .notReady notReadyReply
    | some r =>
      .answered (UniversalRetriever.invoke vsearch lsearch r (refine question))
        (String.intercalate "\n"
          ((retrievedItems vsearch lsearch r (refine question)).map formatItem))

/-! ## Concrete fixtures used by witnesses and counterexamples -/

/-- A degenerate character splitter: one chunk per page. -/
def split0 : String → List String := fun t => [t]

/-- A concrete stand-in for the Chroma similarity search. -/
def vsearch0 : List Chunk → String → Nat → List Chunk := fun st _ k => st.take k

/-- A concrete stand-in for the BM25 scorer. -/
def lsearch0 : List String → String → Nat → List String := fun ts _ k => ts.take k

/-- A concrete stand-in for the LLM query refiner. -/
def refine0 : String → String := id

/-- Page 0 of a readable one-page document. -/
def pageA : PageDoc :=
  { page_content := "Leave Policy\nEmployees get 20 days.", page := 0, src := "/abs/a.pdf" }

/-- A readable corpus file. -/
def fileA : SourceFile := { filename := "a.pdf", parseResult := some [pageA] }

/-- An unreadable corpus file: its loading raises and is caught. -/
def fileBad : SourceFile := { filename := "bad.pdf", parseResult := none }

/-- The chunk `ingest_documents` persists for `fileA` under `split0`. -/
def chunkA : Chunk :=
  { page_content := "Leave Policy\nEmployees get 20 days.",
    source := some "a.pdf", page := some 0, sect := some "Leave Policy" }

/-- Fresh process state: empty persisted store, no retriever. -/
def emptyState : IngestState := { store := [], retriever := none }

/-- A state with a non-empty persisted store and no retriever yet. -/
def stateFull : IngestState := { store := [chunkA], retriever := none }

/-- A page whose text is one 60-character line. -/
def pageLong : PageDoc :=
  { page_content := String.mk (List.replicate 60 'x'), page := 0, src := "/abs/long.pdf" }

/-- A readable file whose first line is 60 characters long. -/
def fileLong : SourceFile := { filename := "long.pdf", parseResult := some [pageLong] }

/-! ## Helper lemmas -/

theorem ingest_documents_nil (split : String → List String) (s : IngestState) :
    ingest_documents split [] s = s := rfl

theorem iterate_ingest_nil (split : String → List String) (s : IngestState) (n : Nat) :
    (ingest_documents split [])^[n] s = s := by
  induction n with
  | zero => rfl
  | succ n ih => rw [Function.iterate_succ_apply, ingest_documents_nil, ih]

theorem ingest_store_eq (split : String → List String) (files : List SourceFile)
    (s : IngestState) :
    (ingest_documents split files s).store
      = if files.isEmpty then s.store else indexedStore split files s := by
  unfold ingest_documents
  by_cases hf : files.isEmpty
  · simp [hf]
  · by_cases hc : ((indexedStore split files s).map fun c => c.page_content).isEmpty <;>
      simp [hf, hc]

theorem ingest_retriever_eq (split : String → List String) (files : List SourceFile)
    (s : IngestState) :
    (ingest_documents split files s).retriever
      = if files.isEmpty ∨ ((indexedStore split files s).map fun c => c.page_content).isEmpty
        then s.retriever
        else some
          { chromaStore := indexedStore split files s,
            bm25 := { texts := (indexedStore split files s).map fun c => c.page_content } } := by
  unfold ingest_documents
  by_cases hf : files.isEmpty
  · simp [hf]
  · by_cases hc : ((indexedStore split files s).map fun c => c.page_content).isEmpty <;>
      simp [hf, hc]

theorem flatMap_processFile_filter (split : String → List String) (files : List SourceFile) :
    files.flatMap (processFile split)
      = (files.filter fun f => f.parseResult.isSome).flatMap (processFile split) := by
  induction files with
  | nil => rfl
  | cons f fs ih =>
      cases hp : f.parseResult with
      | none => simp [List.flatMap_cons, List.filter_cons, hp, processFile, ih]
      | some pages => simp [List.flatMap_cons, List.filter_cons, hp, ih]

theorem pyTake_of_length_le (n : Nat) (s : String) (h : s.length ≤ n) : pyTake n s = s := by
  cases s with
  | mk data =>
    have hd : data.length ≤ n := h
    simp [pyTake, String.toList, List.take_of_length_le hd]

/-! ## Claims -/

/-- C1: build-once idempotence. When the persisted vector store is non-empty,
running `ingest_documents` again (over any file list) leaves the store exactly
as it was, so `count()` does not grow between two consecutive runs. -/
theorem C1_build_once_idempotent (split : String → List String) (files : List SourceFile)
    (s : IngestState) (h : s.store ≠ []) :
    (ingest_documents split files s).store = s.store ∧
    (ingest_documents split files s).store.length = s.store.length := by
  have hlen : ¬ s.store.length = 0 := by simpa [List.length_eq_zero] using h
  have hidx : indexedStore split files s = s.store := by simp [indexedStore, hlen]
  have hst : (ingest_documents split files s).store = s.store := by
    rw [ingest_store_eq, hidx, ite_self]
  exact ⟨hst, by rw [hst]⟩

theorem C1_build_once_idempotent_witness :
    stateFull.store ≠ [] ∧
    (ingest_documents split0 [fileA] stateFull).store = stateFull.store :=
  ⟨by decide, (C1_build_once_idempotent split0 [fileA] stateFull (by decide)).1⟩

/-- C2: the ensemble result is exactly the vector top-5 results followed by the
lexical top-5 results with no deduplication: the length is the sum of the two
sub-lists' lengths and every text occurs as often as in the two sub-lists
combined, so a passage found by both strategies appears twice. -/
theorem C2_ensemble_concat (vsearch : List Chunk → String → Nat → List Chunk)
    (lsearch : List String → String → Nat → List String) (r : Retriever) (q : String) :
    UniversalRetriever.invoke vsearch lsearch r q
      = vsearch r.chromaStore q 5 ++ (lsearch r.bm25.texts q 5).map bm25ResultDoc ∧
    (UniversalRetriever.invoke vsearch lsearch r q).length
      = (vsearch r.chromaStore q 5).length + (lsearch r.bm25.texts q 5).length ∧
    ∀ t : String,
      ((UniversalRetriever.invoke vsearch lsearch r q).map fun c => c.page_content).count t
        = ((vsearch r.chromaStore q 5).map fun c => c.page_content).count t
          + (lsearch r.bm25.texts q 5).count t := by
  refine ⟨rfl, by simp [UniversalRetriever.invoke, chromaInvoke, bm25Invoke], ?_⟩
  intro t
  have hid : ((fun c : Chunk => c.page_content) ∘ bm25ResultDoc) = id := rfl
  simp [UniversalRetriever.invoke, chromaInvoke, bm25Invoke,
    List.count_append, List.map_map, hid]

/-- C3: the rebuilt lexical index does not carry provenance metadata. After
ingesting a readable file, the persisted entry carries `source = a.pdf`, yet
the lexical-side retrieval result for the very same corpus carries no
`source`, `page` or `section` at all, because BM25 is rebuilt from the bare
persisted texts. -/
theorem C3_lexical_metadata_lost :
    ((ingest_documents split0 [fileA] emptyState).store.map fun c => c.source)
      = [some "a.pdf"] ∧
    ((ingest_documents split0 [fileA] emptyState).retriever.map fun r =>
        (bm25Invoke lsearch0 r "leave policy").map fun c => (c.source, c.page, c.sect))
      = some [(none, none, none)] := by decide

/-- C4 counterexample: the tagging loop leaves the loader's 0-indexed page
untouched, so the passage persisted for the first page of `a.pdf` carries
page metadata `some 0`, and the claim that every tagger-produced passage has
a page value at least 1 fails on this corpus. -/
theorem C4_counterexample :
    ((ingest_documents split0 [fileA] emptyState).store.map fun c => c.page) = [some 0] ∧
    ¬ (∀ c ∈ (ingest_documents split0 [fileA] emptyState).store, 1 ≤ c.page.getD 0) := by
  decide

/-- C4 amended: the tagger sets `source` to the originating filename but keeps
the loader's 0-indexed page number; the conversion to a 1-based page happens
only in the chat handler, whose rendered page value `metadata.get(page, 0) + 1`
is always at least 1. -/
theorem C4_amended (split : String → List String) (f : SourceFile) (c : Chunk)
    (h : c ∈ processFile split f) :
    c.source = some f.filename ∧
    (∃ pages, f.parseResult = some pages ∧ ∃ d ∈ pages, c.page = some d.page) ∧
    1 ≤ renderedPage c := by
  unfold processFile at h
  cases hp : f.parseResult with
  | none => rw [hp] at h; exact absurd h (List.not_mem_nil c)
  | some pages =>
    rw [hp] at h
    rcases List.mem_map.mp h with ⟨b, hb, hbc⟩
    rcases List.mem_flatMap.mp hb with ⟨d, hd, hbd⟩
    rcases List.mem_map.mp hbd with ⟨t, _, hback⟩
    refine ⟨?_, ⟨pages, rfl, d, hd, ?_⟩, ?_⟩
    · rw [← hbc]; rfl
    · rw [← hbc, ← hback]; rfl
    · exact Nat.succ_le_succ (Nat.zero_le _)

theorem C4_amended_witness :
    chunkA ∈ processFile split0 fileA ∧
    chunkA.source = some "a.pdf" ∧ 1 ≤ renderedPage chunkA :=
  ⟨by decide, (C4_amended split0 fileA chunkA (by decide)).1,
    (C4_amended split0 fileA chunkA (by decide)).2.2⟩

/-- C5 counterexample: a tagged passage whose first line has 60 characters
gets the 50-character truncation of that line as its section label, not the
default `General Section` label the claim requires for lines of 50 characters
or more. -/
theorem C5_counterexample :
    (firstLine (String.mk (List.replicate 60 'x'))).length = 60 ∧
    ((ingest_documents split0 [fileLong] emptyState).store.map fun c => c.sect)
      = [some (String.mk (List.replicate 50 'x'))] ∧
    ((ingest_documents split0 [fileLong] emptyState).store.map fun c => c.sect)
      ≠ [some "General Section"] := by decide

/-- C5 amended: the section label is `General Section` exactly when the first
line has at most 3 characters; whenever the first line is longer than 3
characters the label is the first 50 characters of that line — verbatim when
the line is at most 50 characters long, truncated otherwise. -/
theorem C5_amended (text : String) :
    ((firstLine text).length ≤ 3 → sectionName text = "General Section") ∧
    (3 < (firstLine text).length → sectionName text = pyTake 50 (firstLine text)) ∧
    (3 < (firstLine text).length → (firstLine text).length ≤ 50 →
      sectionName text = firstLine text) := by
  refine ⟨fun h => ?_, fun h => ?_, fun h hle => ?_⟩
  · have : ¬ (firstLine text).length > 3 := by omega
    simp [sectionName, this]
  · simp [sectionName, h]
  · rw [show sectionName text = pyTake 50 (firstLine text) from by simp [sectionName, h]]
    exact pyTake_of_length_le 50 (firstLine text) hle

theorem C5_amended_witness :
    (3 < (firstLine "Holidays\nrest").length ∧ (firstLine "Holidays\nrest").length ≤ 50) ∧
    sectionName "Holidays\nrest" = firstLine "Holidays\nrest" :=
  ⟨⟨by decide, by decide⟩, (C5_amended "Holidays\nrest").2.2 (by decide) (by decide)⟩

/-- C6: an unreadable document contributes nothing and does not abort the run:
starting from an empty store, the store after ingestion is exactly the
concatenation of the chunks of the successfully parsed documents, and every
unreadable file is skipped. -/
theorem C6_unreadable_skipped (split : String → List String) (files : List SourceFile)
    (s : IngestState) (hstore : s.store = []) (hfiles : files ≠ []) :
    (ingest_documents split files s).store
      = (files.filter fun f => f.parseResult.isSome).flatMap (processFile split) ∧
    ∀ f : SourceFile, f.parseResult = none → processFile split f = [] := by
  have hf : files.isEmpty = false := by
    cases files with
    | nil => exact absurd rfl hfiles
    | cons a l => rfl
  have hidx : indexedStore split files s = files.flatMap (processFile split) := by
    simp [indexedStore, hstore]
  refine ⟨?_, fun f hp => by simp [processFile, hp]⟩
  rw [ingest_store_eq, hf]
  simp only [Bool.false_eq_true, if_false]
  rw [hidx, flatMap_processFile_filter]

theorem C6_unreadable_skipped_witness :
    (emptyState.store = [] ∧ ([fileA, fileBad] : List SourceFile) ≠ []) ∧
    (ingest_documents split0 [fileA, fileBad] emptyState).store
      = (([fileA, fileBad] : List SourceFile).filter fun f => f.parseResult.isSome).flatMap
          (processFile split0) :=
  ⟨⟨rfl, by decide⟩,
    (C6_unreadable_skipped split0 [fileA, fileBad] emptyState rfl (by decide)).1⟩

/-- C7: with zero PDF files the orchestrator never becomes ready: after any
number of runs the retriever is still absent, `is_ready` is false, and a query
that is not small talk receives the not-ready answer instead of retrieval
results. -/
theorem C7_empty_corpus_never_ready (split : String → List String)
    (vsearch : List Chunk → String → Nat → List Chunk)
    (lsearch : List String → String → Nat → List String)
    (refineQ : String → String) (s : IngestState) (hs : s.retriever = none)
    (n : Nat) (q : String) (hq : handle_small_talk q = none) :
    ((ingest_documents split [])^[n] s).retriever = none ∧
    is_ready ((ingest_documents split [])^[n] s) = false ∧
    chat vsearch lsearch refineQ ((ingest_documents split [])^[n] s) q
      = ChatOutcome.notReady notReadyReply := by
  rw [iterate_ingest_nil]
  refine ⟨hs, by simp [is_ready, hs], ?_⟩
  simp only [chat, hq, hs]

theorem C7_empty_corpus_never_ready_witness :
    (emptyState.retriever = none ∧ handle_small_talk "what is the leave policy" = none) ∧
    chat vsearch0 lsearch0 refine0 ((ingest_documents split0 [])^[3] emptyState)
        "what is the leave policy"
      = ChatOutcome.notReady notReadyReply :=
  ⟨⟨rfl, by decide⟩,
    (C7_empty_corpus_never_ready split0 vsearch0 lsearch0 refine0 emptyState rfl 3
      "what is the leave policy" (by decide)).2.2⟩

/-- C8: after any run that gets past the corpus scan, whenever the resulting
store is non-empty the retriever is installed, its lexical index holds exactly
the persisted texts read back from the store, and its vector side searches
exactly the persisted store; when the store is empty no retriever is
installed. -/
theorem C8_lexical_from_persisted (split : String → List String) (files : List SourceFile)
    (s : IngestState) (hfiles : files ≠ []) :
    ((ingest_documents split files s).store ≠ [] →
      (ingest_documents split files s).retriever
        = some
          { chromaStore := (ingest_documents split files s).store,
            bm25 :=
              { texts := (ingest_documents split files s).store.map fun c => c.page_content } }) ∧
    ((ingest_documents split files s).store = [] →
      (ingest_documents split files s).retriever = s.retriever) := by
  have hf : files.isEmpty = false := by
    cases files with
    | nil => exact absurd rfl hfiles
    | cons a l => rfl
  have hst : (ingest_documents split files s).store = indexedStore split files s := by
    rw [ingest_store_eq, hf]
    simp only [Bool.false_eq_true, if_false]
  constructor
  · intro hne
    rw [hst] at hne
    have hmap : ¬ ((indexedStore split files s).map fun c => c.page_content).isEmpty = true := by
      simp [List.isEmpty_iff, hne]
    rw [ingest_retriever_eq, hst]
    simp [hf, hmap]
  · intro hnil
    rw [hst] at hnil
    rw [ingest_retriever_eq]
    simp [hf, hnil, List.isEmpty_iff]

theorem C8_lexical_from_persisted_witness :
    (([fileA] : List SourceFile) ≠ [] ∧ (ingest_documents split0 [fileA] emptyState).store ≠ []) ∧
    (ingest_documents split0 [fileA] emptyState).retriever
      = some
        { chromaStore := (ingest_documents split0 [fileA] emptyState).store,
          bm25 :=
            { texts :=
                (ingest_documents split0 [fileA] emptyState).store.map fun c => c.page_content } } :=
  ⟨⟨by decide, by decide⟩,
    (C8_lexical_from_persisted split0 [fileA] emptyState (by decide)).1 (by decide)⟩

/-- C9: with no `.pdf` files `ingest_documents` returns the state unchanged
before the persisted store is consulted — even when that store is non-empty
from an earlier run — so the retriever stays absent and every non-small-talk
query gets the not-ready answer: the persisted passages are unreachable. -/
theorem C9_no_files_early_return (split : String → List String)
    (vsearch : List Chunk → String → Nat → List Chunk)
    (lsearch : List String → String → Nat → List String)
    (refineQ : String → String) (s : IngestState) (hs : s.retriever = none)
    (q : String) (hq : handle_small_talk q = none) :
    ingest_documents split [] s = s ∧
    (ingest_documents split [] s).retriever = none ∧
    chat vsearch lsearch refineQ (ingest_documents split [] s) q
      = ChatOutcome.notReady notReadyReply := by
  refine ⟨ingest_documents_nil split s, ?_, ?_⟩
  · rw [ingest_documents_nil]; exact hs
  · rw [ingest_documents_nil]; simp only [chat, hq, hs]

theorem C9_no_files_early_return_witness :
    (stateFull.retriever = none ∧ stateFull.store ≠ [] ∧
      handle_small_talk "count my leave days" = none) ∧
    ingest_documents split0 [] stateFull = stateFull ∧
    chat vsearch0 lsearch0 refine0 (ingest_documents split0 [] stateFull) "count my leave days"
      = ChatOutcome.notReady notReadyReply :=
  ⟨⟨rfl, by decide, by decide⟩,
    (C9_no_files_early_return split0 vsearch0 lsearch0 refine0 stateFull rfl
      "count my leave days" (by decide)).1,
    (C9_no_files_early_return split0 vsearch0 lsearch0 refine0 stateFull rfl
      "count my leave days" (by decide)).2.2⟩

/-- C10: the context-building loop is total and defaults missing metadata: an
item with a metadata attribute but none of the three keys renders with source
`Unknown Document`, page `0 + 1 = 1` and section `General`, while an item
without a metadata attribute renders as a bare content block. -/
theorem C10_chat_formatting_defaults (t s : String) :
    formatItem (RItem.doc { page_content := t, source := none, page := none, sect := none })
      = "<doc><meta source=" ++ sq ++ "Unknown Document" ++ sq ++ " page=" ++ sq ++ "1" ++ sq
        ++ " section=" ++ sq ++ "General" ++ sq ++ "/>"
        ++ "<content>" ++ replaceNewlines t ++ "</content></doc>" ∧
    renderedPage { page_content := t, source := none, page := none, sect := none } = 0 + 1 ∧
    formatItem (RItem.plain s) = "<doc><content>" ++ s ++ "</content></doc>" := by
  refine ⟨?_, rfl, rfl⟩
  have h1 : toString (1 : Nat) = "1" := rfl
  calc
    formatItem (RItem.doc { page_content := t, source := none, page := none, sect := none })
        = "<doc><meta source=" ++ sq ++ "Unknown Document" ++ sq ++ " page=" ++ sq
            ++ toString (1 : Nat) ++ sq ++ " section=" ++ sq ++ "General" ++ sq ++ "/>"
            ++ "<content>" ++ replaceNewlines t ++ "</content></doc>" := rfl
    _ = "<doc><meta source=" ++ sq ++ "Unknown Document" ++ sq ++ " page=" ++ sq ++ "1" ++ sq
          ++ " section=" ++ sq ++ "General" ++ sq ++ "/>"
          ++ "<content>" ++ replaceNewlines t ++ "</content></doc>" := by rw [h1]

end OfficeBot
